import Mathlib

/-
Verification of the profit/cost estimation engine of the eBay listings app
(src/ebay_added_fields_github.py), embedded shallowly over exact rational
arithmetic.  Python values that may be None or may fail numeric coercion
are modelled by the type PyNum below; the try/except blocks of the source
become a match on the coercion results, with the except branch returning
the zero-filled fallback exactly as the source does.
-/

namespace EbaySpec

/-- A Python value passed to one of the numeric functions: either None,
a value that coerces to a number, or a value on which float()/int()
raises ValueError or TypeError. -/
inductive PyNum where
  | none : PyNum
  | num : ℚ → PyNum
  | bad : PyNum
deriving DecidableEq

/-- The coercion pattern used throughout the source:
x is mapped to 0.0 when it is None, to float(x) otherwise, and float(x)
raises (modelled as failure) on a non-coercible value. -/
def coerceF : PyNum → Option ℚ
  | PyNum.none => some 0
  | PyNum.num q => some q
  | PyNum.bad => Option.none

/-- Truncation toward zero, the behaviour of Python int() on a number. -/
def pyInt (q : ℚ) : ℤ :=
  if 0 ≤ q then ⌊q⌋ else ⌈q⌉

/-- The int() coercion pattern of categorize_seller: None maps to 0,
otherwise int(x), which raises on a non-coercible value. -/
def coerceI : PyNum → Option ℤ
  | PyNum.none => some 0
  | PyNum.num q => some (pyInt q)
  | PyNum.bad => Option.none

/-- categorize_seller from the source, lines 69-91: ordered first-match
thresholds on the coerced feedback score and feedback percentage; the
except branch returns Uncategorized. -/
def categorize_seller (feedback_score feedback_percent : PyNum) : String :=
  match coerceI feedback_score, coerceF feedback_percent with
  | some score, some percent =>
    if score ≥ 5000 ∧ percent ≥ 99 then "Elite"
    else if score ≥ 1000 ∧ percent ≥ 98 then "Excellent"
    else if score ≥ 500 ∧ percent ≥ 97 then "Very Good"
    else if score ≥ 100 ∧ percent ≥ 95 then "Good"
    else if score ≥ 100 ∧ percent ≥ 90 then "Average"
    else if score < 100 ∧ percent ≥ 90 then "Inexperienced"
    else if percent < 90 then "Low Rated"
    else "Uncategorized"
  | _, _ => "Uncategorized"

/-- The body of calculate_profit_metrics (source lines 205-233) after the
numeric coercions have succeeded; returns
(net_profit, profit_margin, total_expenses, ebay_pay_out). -/
def calculate_profit_metrics_body (price shipping cogs shipping_cost_input ad_rate : ℚ)
    (category : String) : ℚ × ℚ × ℚ × ℚ :=
  let ebay_fee : ℚ :=
    if category = "Headphones" ∨ category = "Video Games & Consoles" then 0.136 else 0.153
  let final_value_fee : ℚ := 0.4
  let tax_rate : ℚ := 0.0825
  let ad_rate_decimal := ad_rate / 100
  let sold_price := price + shipping_cost_input
  let sold_price_with_shipping_taxes := sold_price * (1 + tax_rate)
  let ebay_transaction_fees := sold_price_with_shipping_taxes * ebay_fee + final_value_fee
  let ad_fees := ad_rate_decimal * sold_price_with_shipping_taxes
  let total_expenses := ebay_transaction_fees + ad_fees + shipping_cost_input
  let ebay_pay_out := sold_price - total_expenses
  let net_profit := ebay_pay_out - cogs
  let profit_margin := if price > 0 then net_profit / price * 100 else 0
  (net_profit, profit_margin, total_expenses, ebay_pay_out)

/-- calculate_profit_metrics from the source, lines 205-236: coerce the five
numeric arguments, run the formula body, and on coercion failure return the
zero-filled tuple (the except branch). The shipping argument is coerced but
unused by the body, exactly as in the source. -/
def calculate_profit_metrics (price shipping cogs shipping_cost_input ad_rate : PyNum)
    (category : String) : ℚ × ℚ × ℚ × ℚ :=
  match coerceF price, coerceF shipping, coerceF cogs, coerceF shipping_cost_input,
      coerceF ad_rate with
  | some p, some s, some c, some sci, some ar =>
      calculate_profit_metrics_body p s c sci ar category
  | _, _, _, _, _ => (0, 0, 0, 0)

/-- The body of calculate_cogs_from_margin (source lines 94-127) after the
numeric coercions have succeeded: the same payout computation as
calculate_profit_metrics_body, then required_cogs floored at 0. -/
def calculate_cogs_from_margin_body (price shipping shipping_cost_input ad_rate : ℚ)
    (category : String) (target_margin : ℚ) : ℚ :=
  let ebay_fee : ℚ :=
    if category = "Headphones" ∨ category = "Video Games & Consoles" then 0.136 else 0.153
  let final_value_fee : ℚ := 0.4
  let tax_rate : ℚ := 0.0825
  let ad_rate_decimal := ad_rate / 100
  let target_margin_decimal := target_margin / 100
  let sold_price := price + shipping_cost_input
  let sold_price_with_shipping_taxes := sold_price * (1 + tax_rate)
  let ebay_transaction_fees := sold_price_with_shipping_taxes * ebay_fee + final_value_fee
  let ad_fees := ad_rate_decimal * sold_price_with_shipping_taxes
  let total_expenses := ebay_transaction_fees + ad_fees + shipping_cost_input
  let ebay_pay_out := sold_price - total_expenses
  let required_cogs := ebay_pay_out - target_margin_decimal * price
  max 0 required_cogs

/-- calculate_cogs_from_margin from the source, lines 94-130: coerce the five
numeric arguments, run the body, and on coercion failure return 0.0. -/
def calculate_cogs_from_margin (price shipping shipping_cost_input ad_rate : PyNum)
    (category : String) (target_margin : PyNum) : ℚ :=
  match coerceF price, coerceF shipping, coerceF shipping_cost_input, coerceF ad_rate,
      coerceF target_margin with
  | some p, some s, some sci, some ar, some tm =>
      calculate_cogs_from_margin_body p s sci ar category tm
  | _, _, _, _, _ => 0.0

/-- The formula chain of the spec, section 4.1, written from the spec text
(not from the source) for the refinement claim C2: soldPrice, taxedSoldPrice,
marketplaceFee, adFee, totalExpenses, payout, netProfit, marginPercent, with
flat fee 0.40, tax rate 8.25 percent and the two-tier fee-rate lookup. -/
def spec_estimate_profit (price acquisitionCost sellerShippingCost adRatePercent : ℚ)
    (category : String) : ℚ × ℚ × ℚ × ℚ :=
  let feeRate : ℚ :=
    if category = "Headphones" ∨ category = "Video Games & Consoles" then 0.136 else 0.153
  let flatFee : ℚ := 0.4
  let taxRate : ℚ := 0.0825
  let soldPrice := price + sellerShippingCost
  let taxedSoldPrice := soldPrice * (1 + taxRate)
  let marketplaceFee := taxedSoldPrice * feeRate + flatFee
  let adFee := adRatePercent / 100 * taxedSoldPrice
  let totalExpenses := marketplaceFee + adFee + sellerShippingCost
  let payout := soldPrice - totalExpenses
  let netProfit := payout - acquisitionCost
  let marginPercent := if price > 0 then netProfit / price * 100 else 0
  (netProfit, marginPercent, totalExpenses, payout)

/-- The two COGS modes of the UI: manual entry, or a target profit margin
(source lines 302-325, mutually exclusive selection). -/
inductive CogsMethod where
  | manual : ℚ → CogsMethod
  | targetMargin : ℚ → CogsMethod
deriving DecidableEq

/-- The user-supplied search settings consumed by the results loop. -/
structure SearchConfig where
  selected_category : String
  max_price : ℚ
  cogs_method : CogsMethod
  shipping_cost : ℚ
  ad_rate : ℚ
deriving DecidableEq

/-- A raw item from the marketplace response, after the per-field extraction
of source lines 491-497 and 520-523: title, coerced price and first shipping
option cost, conditionId (absent when the API omits it), condition text,
buying options, and seller fields. -/
structure RawItem where
  title : String
  price : ℚ
  shipping : ℚ
  conditionId : Option String
  condition : String
  buyingOptions : List String
  seller_username : String
  seller_feedback_score : PyNum
  seller_feedback_percent : PyNum
  link : String
deriving DecidableEq

/-- A row of the normalized result set (source lines 529-544). -/
structure ResultRow where
  listing : String
  condition : String
  price : ℚ
  ebay_pay_out : ℚ
  total_expenses : ℚ
  target_acquisition_cost_cogs : ℚ
  net_profit : ℚ
  profit_margin : ℚ
  listing_type : String
  seller : String
  seller_rating : String
  seller_feedback : PyNum
  seller_feedback_score : PyNum
  link : String
deriving DecidableEq

/-- One iteration of the results loop (source lines 489-546): skip the item
when its conditionId is the for-parts sentinel 7000, compute the COGS by the
selected method, compute the profit metrics and the seller tier, and keep the
row only when price plus shipping does not exceed the max-price ceiling. -/
def processItem (cfg : SearchConfig) (item : RawItem) : Option ResultRow :=
  let total_cost := item.price + item.shipping
  if item.conditionId = some "7000" then Option.none
  else
    let actual_cogs : ℚ :=
      match cfg.cogs_method with
      | CogsMethod.manual c => c
      | CogsMethod.targetMargin tm =>
          calculate_cogs_from_margin (PyNum.num item.price) (PyNum.num item.shipping)
            (PyNum.num cfg.shipping_cost) (PyNum.num cfg.ad_rate) cfg.selected_category
            (PyNum.num tm)
    let m := calculate_profit_metrics (PyNum.num item.price) (PyNum.num item.shipping)
      (PyNum.num actual_cogs) (PyNum.num cfg.shipping_cost) (PyNum.num cfg.ad_rate)
      cfg.selected_category
    let seller_category := categorize_seller item.seller_feedback_score item.seller_feedback_percent
    if total_cost ≤ cfg.max_price then
      some { listing := item.title
             condition := item.condition
             price := item.price
             ebay_pay_out := m.2.2.2
             total_expenses := m.2.2.1
             target_acquisition_cost_cogs := actual_cogs
             net_profit := m.1
             profit_margin := m.2.1
             listing_type := String.intercalate ", " item.buyingOptions
             seller := item.seller_username
             seller_rating := seller_category
             seller_feedback := item.seller_feedback_percent
             seller_feedback_score := item.seller_feedback_score
             link := item.link }
    else Option.none

/-- The whole results loop over the fetched items. -/
def processItems (cfg : SearchConfig) (items : List RawItem) : List ResultRow :=
  items.filterMap (processItem cfg)

/-- The textual exclusion list for the Headphones category
(source lines 393-432), in source order, duplicates included. -/
def excluded_terms_headphones : List String :=
  ["ear pads only", "earpads only", "earpad only", "pads only",
   "ear cushions only", "cushions only", "foam only",
   "cable only", "cord only", "wire only", "charger only",
   "case only", "pouch only", "bag only", "box only",
   "manual only", "instructions only", "parts only",
   "spare parts", "accessory kit", "accessories only",
   "stand only", "holder only", "hanger only",
   "compatible with", "fits", "for use with", "designed for",
   "ltgem case", "khanka case", "co2crea case", "aproca case",
   "replacement for", "replacement earpads for", "replacement ear pads for",
   "replacement speakers for", "replacement cable for", "replacement cord for",
   "replacement hifi speakers", "replacement repair upgrade",
   "pairs replacement", "pair replacement", "x replacement",
   "premium vegan leather earpads", "perforated replacement earpads",
   "vegan leather earpads for", "memory foam earpads for",
   "oem ear pads for", "genuine ear pads for", "original ear pads for",
   "replacement pads for", "replacement ear pads for", "replacement headband",
   "replacement headband cushion pad", "replacement cushions for",
   "ear pads for", "ear cushions for", "pads for", "earpads for",
   "headphone cable for", "headphone cord for", "headphone wire for",
   "carrying case for", "storage case for", "travel case for", "headphone case for",
   "carrying pouch for", "storage pouch for", "travel pouch for", "headphone pouch for",
   "case for", "pouch for", "bag for",
   "hinge parts", "foam cushion", "ear pad set for", "cushion set for", "foam set for",
   "headphone replacement ear pad", "headphones replacement ear",
   "broken", "cracked", "damaged beyond repair", "for parts not working",
   "does not work", "no sound", "dead", "fried", "blown driver",
   "empty box", "box no headphones", "packaging only"]

/-- exclusion_string from source line 433. -/
def exclusion_string : String :=
  "(" ++ String.intercalate "," excluded_terms_headphones ++ ")"

/-- Query construction, source lines 435-438: only for the Headphones
category is the exclusion string appended, as a negated term for the
upstream API. -/
def buildQuery (selected_category search_term : String) : String :=
  if selected_category ∈ ["Headphones"] then
    "\"" ++ search_term ++ "\" -" ++ exclusion_string
  else
    "\"" ++ search_term ++ "\""

/- Helper lemmas: the PyNum wrappers on successfully coerced inputs reduce
to the formula bodies, and the bodies expose their components. -/

lemma calculate_profit_metrics_num (p s c sc a : ℚ) (cat : String) :
    calculate_profit_metrics (PyNum.num p) (PyNum.num s) (PyNum.num c) (PyNum.num sc)
      (PyNum.num a) cat = calculate_profit_metrics_body p s c sc a cat := rfl

lemma calculate_cogs_from_margin_num (p s sc a tm : ℚ) (cat : String) :
    calculate_cogs_from_margin (PyNum.num p) (PyNum.num s) (PyNum.num sc) (PyNum.num a)
      cat (PyNum.num tm) = calculate_cogs_from_margin_body p s sc a cat tm := rfl

lemma profit_margin_body_eq (p s c sc a : ℚ) (cat : String) :
    (calculate_profit_metrics_body p s c sc a cat).2.1 =
      if p > 0 then (calculate_profit_metrics_body p s c sc a cat).1 / p * 100 else 0 := rfl

lemma net_profit_body_eq (p s c sc a : ℚ) (cat : String) :
    (calculate_profit_metrics_body p s c sc a cat).1 =
      (calculate_profit_metrics_body p s c sc a cat).2.2.2 - c := rfl

lemma payout_body_cogs_free (p s c sc a : ℚ) (cat : String) :
    (calculate_profit_metrics_body p s c sc a cat).2.2.2 =
      (calculate_profit_metrics_body p s 0 sc a cat).2.2.2 := rfl

lemma cogs_body_eq_payout (p s sc a tm : ℚ) (cat : String) :
    calculate_cogs_from_margin_body p s sc a cat tm =
      max 0 ((calculate_profit_metrics_body p s 0 sc a cat).2.2.2 - tm / 100 * p) := rfl

lemma all_categories_not_preferential :
    ¬("All Categories" = "Headphones" ∨ "All Categories" = "Video Games & Consoles") := by
  decide

/-- C2: calculate_profit_metrics realizes exactly the formula chain of the
spec, section 4.1 (flat fee 0.40, tax rate 8.25 percent), and on the example
price 20.00, seller shipping 4.47, ad rate 3 percent, default fee 0.153,
acquisition cost 2.00 it returns net profit, total expenses, payout and
margin within the stated approximations. -/
theorem C2_formula_and_example :
    (∀ p s c sc a : ℚ, ∀ cat : String,
      calculate_profit_metrics (PyNum.num p) (PyNum.num s) (PyNum.num c) (PyNum.num sc)
        (PyNum.num a) cat = spec_estimate_profit p c sc a cat) ∧
    (|(calculate_profit_metrics (PyNum.num 20) (PyNum.num 0) (PyNum.num 2) (PyNum.num 4.47)
        (PyNum.num 3) "All Categories").1 - 12.753| < 0.001 ∧
     |(calculate_profit_metrics (PyNum.num 20) (PyNum.num 0) (PyNum.num 2) (PyNum.num 4.47)
        (PyNum.num 3) "All Categories").2.2.1 - 9.717| < 0.001 ∧
     |(calculate_profit_metrics (PyNum.num 20) (PyNum.num 0) (PyNum.num 2) (PyNum.num 4.47)
        (PyNum.num 3) "All Categories").2.2.2 - 14.753| < 0.001 ∧
     |(calculate_profit_metrics (PyNum.num 20) (PyNum.num 0) (PyNum.num 2) (PyNum.num 4.47)
        (PyNum.num 3) "All Categories").2.1 - 63.76| < 0.01) := by
  refine ⟨fun p s c sc a cat => rfl, ?_, ?_, ?_, ?_⟩ <;>
    norm_num [calculate_profit_metrics, coerceF, calculate_profit_metrics_body, abs_lt,
      all_categories_not_preferential]

/-- C3 counterexample: classify_seller on the pair (None, None) returns
Low Rated, not Uncategorized — None is coerced to 0, which satisfies the
rule percent below 90, so the coercion never fails there. -/
theorem C3_counterexample :
    categorize_seller PyNum.none PyNum.none = "Low Rated" ∧
    categorize_seller PyNum.none PyNum.none ≠ "Uncategorized" := by
  exact ⟨by decide, by decide⟩

/-- C3 (amended): categorize_seller coerces its inputs and returns
Uncategorized whenever coercion fails (a non-coercible argument on either
side), never raising; classify_seller(5000, 99) is Elite and
classify_seller(50, 85) is Low Rated, but classify_seller(None, None) is
Low Rated, because None is coerced to 0 rather than failing. -/
theorem C3_amended :
    (∀ b : PyNum, categorize_seller PyNum.bad b = "Uncategorized") ∧
    (∀ a : PyNum, categorize_seller a PyNum.bad = "Uncategorized") ∧
    categorize_seller (PyNum.num 5000) (PyNum.num 99) = "Elite" ∧
    categorize_seller (PyNum.num 50) (PyNum.num 85) = "Low Rated" ∧
    categorize_seller PyNum.none PyNum.none = "Low Rated" := by
  refine ⟨?_, ?_, ?_, ?_, ?_⟩
  · intro b; cases b <;> rfl
  · intro a; cases a <;> rfl
  · decide
  · decide
  · decide

/-- C4: calculate_cogs_from_margin computes the payout exactly as
calculate_profit_metrics does and returns that payout minus
targetMargin/100 times price, floored at 0; for every input, also
non-coercible ones, the returned acquisition cost is non-negative (the
except branch returns 0.0, so the function never raises). -/
theorem C4_solver :
    (∀ price shipping shipping_cost_input ad_rate target_margin : PyNum, ∀ category : String,
      0 ≤ calculate_cogs_from_margin price shipping shipping_cost_input ad_rate category
        target_margin) ∧
    (∀ p s sc a tm : ℚ, ∀ cat : String,
      calculate_cogs_from_margin (PyNum.num p) (PyNum.num s) (PyNum.num sc) (PyNum.num a)
          cat (PyNum.num tm) =
        max 0 ((calculate_profit_metrics (PyNum.num p) (PyNum.num s) (PyNum.num 0)
          (PyNum.num sc) (PyNum.num a) cat).2.2.2 - tm / 100 * p)) := by
  constructor
  · intro price shipping sci ar tm cat
    cases price <;> cases shipping <;> cases sci <;> cases ar <;> cases tm <;>
      simp only [calculate_cogs_from_margin, coerceF, calculate_cogs_from_margin_body] <;>
      norm_num
  · intro p s sc a tm cat
    rfl

/-- C6: the profit margin returned by calculate_profit_metrics is
netProfit divided by price times 100 when price is positive and 0
otherwise — in particular at price 0 the margin is 0, a defined value,
with no division-by-zero failure. -/
theorem C6_margin_total :
    (∀ p s c sc a : ℚ, ∀ cat : String,
      (calculate_profit_metrics (PyNum.num p) (PyNum.num s) (PyNum.num c) (PyNum.num sc)
        (PyNum.num a) cat).2.1 =
        if 0 < p then
          (calculate_profit_metrics (PyNum.num p) (PyNum.num s) (PyNum.num c) (PyNum.num sc)
            (PyNum.num a) cat).1 / p * 100
        else 0) ∧
    (calculate_profit_metrics (PyNum.num 0) (PyNum.num 0) (PyNum.num 2) (PyNum.num 4.47)
      (PyNum.num 3) "All Categories").2.1 = 0 := by
  exact ⟨fun p s c sc a cat => rfl, by decide⟩

/-- C10 counterexample: the buyer-shipping argument is not irrelevant for
every value — a non-coercible shipping value trips the exception fallback
of calculate_profit_metrics and changes the output to the zero tuple. -/
theorem C10_counterexample :
    calculate_profit_metrics (PyNum.num 20) PyNum.bad (PyNum.num 2) (PyNum.num 4.47)
        (PyNum.num 3) "All Categories" ≠
      calculate_profit_metrics (PyNum.num 20) (PyNum.num 0) (PyNum.num 2) (PyNum.num 4.47)
        (PyNum.num 3) "All Categories" := by
  norm_num [calculate_profit_metrics, coerceF, calculate_profit_metrics_body,
    all_categories_not_preferential, Prod.mk.injEq, Prod.ext_iff, Prod.fst_zero, Prod.snd_zero]

/-- C10 (amended): among arguments that coerce successfully (any number, and
None which coerces to 0), both calculate_profit_metrics and
calculate_cogs_from_margin are independent of the buyer-shipping argument:
it is coerced but never used in the formulas. A value that fails coercion
instead switches both functions to their zero-filled fallback. -/
theorem C10_shipping_irrelevant :
    (∀ p c sc a : ℚ, ∀ cat : String, ∀ s₁ s₂ : ℚ,
      calculate_profit_metrics (PyNum.num p) (PyNum.num s₁) (PyNum.num c) (PyNum.num sc)
          (PyNum.num a) cat =
        calculate_profit_metrics (PyNum.num p) (PyNum.num s₂) (PyNum.num c) (PyNum.num sc)
          (PyNum.num a) cat ∧
      calculate_cogs_from_margin (PyNum.num p) (PyNum.num s₁) (PyNum.num sc) (PyNum.num a)
          cat (PyNum.num c) =
        calculate_cogs_from_margin (PyNum.num p) (PyNum.num s₂) (PyNum.num sc) (PyNum.num a)
          cat (PyNum.num c)) ∧
    (∀ p c sc a : ℚ, ∀ cat : String,
      calculate_profit_metrics (PyNum.num p) PyNum.none (PyNum.num c) (PyNum.num sc)
          (PyNum.num a) cat =
        calculate_profit_metrics (PyNum.num p) (PyNum.num 0) (PyNum.num c) (PyNum.num sc)
          (PyNum.num a) cat ∧
      calculate_cogs_from_margin (PyNum.num p) PyNum.none (PyNum.num sc) (PyNum.num a)
          cat (PyNum.num c) =
        calculate_cogs_from_margin (PyNum.num p) (PyNum.num 0) (PyNum.num sc) (PyNum.num a)
          cat (PyNum.num c)) := by
  exact ⟨fun p c sc a cat s₁ s₂ => ⟨rfl, rfl⟩, fun p c sc a cat => ⟨rfl, rfl⟩⟩

/-- C1 counterexample: at price 1 with no shipping cost, no ad rate, the
default category and the valid target margin 100 percent, the solver floors
the required acquisition cost to 0, and re-running the calculator with that
cost yields a margin of 43.43775 percent, not the requested 100 percent. -/
theorem C1_counterexample :
    calculate_cogs_from_margin (PyNum.num 1) (PyNum.num 0) (PyNum.num 0) (PyNum.num 0)
      "All Categories" (PyNum.num 100) = 0 ∧
    (calculate_profit_metrics (PyNum.num 1) (PyNum.num 0)
      (PyNum.num (calculate_cogs_from_margin (PyNum.num 1) (PyNum.num 0) (PyNum.num 0)
        (PyNum.num 0) "All Categories" (PyNum.num 100)))
      (PyNum.num 0) (PyNum.num 0) "All Categories").2.1 = 43.43775 ∧
    (calculate_profit_metrics (PyNum.num 1) (PyNum.num 0)
      (PyNum.num (calculate_cogs_from_margin (PyNum.num 1) (PyNum.num 0) (PyNum.num 0)
        (PyNum.num 0) "All Categories" (PyNum.num 100)))
      (PyNum.num 0) (PyNum.num 0) "All Categories").2.1 ≠ 100 := by
  have hc : calculate_cogs_from_margin (PyNum.num 1) (PyNum.num 0) (PyNum.num 0) (PyNum.num 0)
      "All Categories" (PyNum.num 100) = 0 := by
    simp only [calculate_cogs_from_margin, coerceF, calculate_cogs_from_margin_body]
    rw [max_eq_left_iff]
    norm_num [all_categories_not_preferential]
  refine ⟨hc, ?_, ?_⟩ <;>
    rw [hc] <;>
    norm_num [calculate_profit_metrics, coerceF, calculate_profit_metrics_body,
      all_categories_not_preferential]

/-- C1 (amended): whenever the clamp of the solver does not fire — that is,
the payout is at least targetMargin/100 times price, so the solved
acquisition cost is the unclamped value — composing
calculate_cogs_from_margin with calculate_profit_metrics reproduces the
requested target margin exactly (price positive); when the clamp fires the
solver returns 0 and the achieved margin is the lower payout/price ratio. -/
theorem C1_round_trip (p s sc a tm : ℚ) (cat : String) (hp : 0 < p)
    (h : tm / 100 * p ≤ (calculate_profit_metrics (PyNum.num p) (PyNum.num s) (PyNum.num 0)
      (PyNum.num sc) (PyNum.num a) cat).2.2.2) :
    (calculate_profit_metrics (PyNum.num p) (PyNum.num s)
      (PyNum.num (calculate_cogs_from_margin (PyNum.num p) (PyNum.num s) (PyNum.num sc)
        (PyNum.num a) cat (PyNum.num tm)))
      (PyNum.num sc) (PyNum.num a) cat).2.1 = tm := by
  have hp0 : p ≠ 0 := ne_of_gt hp
  rw [calculate_profit_metrics_num] at h
  rw [calculate_profit_metrics_num, calculate_cogs_from_margin_num]
  rw [profit_margin_body_eq, if_pos hp, net_profit_body_eq, cogs_body_eq_payout,
    payout_body_cogs_free]
  set P := (calculate_profit_metrics_body p s 0 sc a cat).2.2.2 with hP
  rw [max_eq_right (by linarith : (0:ℚ) ≤ P - tm / 100 * p)]
  have hcancel : P - (P - tm / 100 * p) = tm / 100 * p := by ring
  rw [hcancel]
  field_simp
  ring

/-- C1 witness: at price 20, seller shipping 4.47, ad rate 3 percent, target
margin 30 percent and the default category, the payout exceeds 30 percent of
the price and the round trip returns exactly 30. -/
theorem C1_round_trip_witness :
    (0:ℚ) < 20 ∧
    (30:ℚ) / 100 * 20 ≤ (calculate_profit_metrics (PyNum.num 20) (PyNum.num 0) (PyNum.num 0)
      (PyNum.num 4.47) (PyNum.num 3) "All Categories").2.2.2 ∧
    (calculate_profit_metrics (PyNum.num 20) (PyNum.num 0)
      (PyNum.num (calculate_cogs_from_margin (PyNum.num 20) (PyNum.num 0) (PyNum.num 4.47)
        (PyNum.num 3) "All Categories" (PyNum.num 30)))
      (PyNum.num 4.47) (PyNum.num 3) "All Categories").2.1 = 30 :=
  ⟨by norm_num,
   by norm_num [calculate_profit_metrics, coerceF, calculate_profit_metrics_body,
     all_categories_not_preferential],
   C1_round_trip 20 0 4.47 3 30 "All Categories" (by norm_num)
     (by norm_num [calculate_profit_metrics, coerceF, calculate_profit_metrics_body,
       all_categories_not_preferential])⟩

lemma calculate_profit_metrics_body_fee (p s c sc a : ℚ) (cat₁ cat₂ : String)
    (hfee : (if cat₁ = "Headphones" ∨ cat₁ = "Video Games & Consoles" then (0.136:ℚ) else 0.153) =
      if cat₂ = "Headphones" ∨ cat₂ = "Video Games & Consoles" then (0.136:ℚ) else 0.153) :
    calculate_profit_metrics_body p s c sc a cat₁ =
      calculate_profit_metrics_body p s c sc a cat₂ := by
  simp only [calculate_profit_metrics_body, hfee]

lemma calculate_cogs_from_margin_body_fee (p s sc a tm : ℚ) (cat₁ cat₂ : String)
    (hfee : (if cat₁ = "Headphones" ∨ cat₁ = "Video Games & Consoles" then (0.136:ℚ) else 0.153) =
      if cat₂ = "Headphones" ∨ cat₂ = "Video Games & Consoles" then (0.136:ℚ) else 0.153) :
    calculate_cogs_from_margin_body p s sc a cat₁ tm =
      calculate_cogs_from_margin_body p s sc a cat₂ tm := by
  simp only [calculate_cogs_from_margin_body, hfee]

/-- C7: the category influences calculate_profit_metrics and
calculate_cogs_from_margin only through the fee-rate lookup — two categories
on the same side of the preferential tier (Headphones and Video Games &
Consoles at 0.136, everything else at 0.153) give identical outputs for
identical numeric inputs. -/
theorem C7_category_fee_tier (price shipping cogs shipping_cost_input ad_rate target_margin : PyNum)
    (cat₁ cat₂ : String)
    (hcat : (cat₁ = "Headphones" ∨ cat₁ = "Video Games & Consoles") ↔
      (cat₂ = "Headphones" ∨ cat₂ = "Video Games & Consoles")) :
    calculate_profit_metrics price shipping cogs shipping_cost_input ad_rate cat₁ =
      calculate_profit_metrics price shipping cogs shipping_cost_input ad_rate cat₂ ∧
    calculate_cogs_from_margin price shipping shipping_cost_input ad_rate cat₁ target_margin =
      calculate_cogs_from_margin price shipping shipping_cost_input ad_rate cat₂ target_margin := by
  have hfee : (if cat₁ = "Headphones" ∨ cat₁ = "Video Games & Consoles" then (0.136:ℚ) else 0.153) =
      if cat₂ = "Headphones" ∨ cat₂ = "Video Games & Consoles" then (0.136:ℚ) else 0.153 := by
    by_cases h1 : cat₁ = "Headphones" ∨ cat₁ = "Video Games & Consoles"
    · rw [if_pos h1, if_pos (hcat.mp h1)]
    · rw [if_neg h1, if_neg fun h2 => h1 (hcat.mpr h2)]
  constructor
  · cases price <;> cases shipping <;> cases cogs <;> cases shipping_cost_input <;>
      cases ad_rate <;>
      simp only [calculate_profit_metrics, coerceF] <;>
      first
        | rfl
        | exact calculate_profit_metrics_body_fee _ _ _ _ _ _ _ hfee
  · cases price <;> cases shipping <;> cases shipping_cost_input <;> cases ad_rate <;>
      cases target_margin <;>
      simp only [calculate_cogs_from_margin, coerceF] <;>
      first
        | rfl
        | exact calculate_cogs_from_margin_body_fee _ _ _ _ _ _ _ hfee

/-- C7 witness: the two preferential categories give identical outputs on a
concrete input. -/
theorem C7_category_fee_tier_witness :
    ((("Headphones":String) = "Headphones" ∨ ("Headphones":String) = "Video Games & Consoles") ↔
      (("Video Games & Consoles":String) = "Headphones" ∨
        ("Video Games & Consoles":String) = "Video Games & Consoles")) ∧
    (calculate_profit_metrics (PyNum.num 20) (PyNum.num 0) (PyNum.num 2) (PyNum.num 4.47)
        (PyNum.num 3) "Headphones" =
      calculate_profit_metrics (PyNum.num 20) (PyNum.num 0) (PyNum.num 2) (PyNum.num 4.47)
        (PyNum.num 3) "Video Games & Consoles" ∧
     calculate_cogs_from_margin (PyNum.num 20) (PyNum.num 0) (PyNum.num 4.47) (PyNum.num 3)
        "Headphones" (PyNum.num 30) =
      calculate_cogs_from_margin (PyNum.num 20) (PyNum.num 0) (PyNum.num 4.47) (PyNum.num 3)
        "Video Games & Consoles" (PyNum.num 30)) :=
  ⟨by decide,
   C7_category_fee_tier (PyNum.num 20) (PyNum.num 0) (PyNum.num 2) (PyNum.num 4.47)
     (PyNum.num 3) (PyNum.num 30) "Headphones" "Video Games & Consoles" (by decide)⟩

lemma processItem_some_conds (cfg : SearchConfig) (item : RawItem) (r : ResultRow)
    (h : processItem cfg item = some r) :
    item.conditionId ≠ some "7000" ∧ item.price + item.shipping ≤ cfg.max_price := by
  by_cases h7 : item.conditionId = some "7000"
  · simp [processItem, h7] at h
  · by_cases hle : item.price + item.shipping ≤ cfg.max_price
    · exact ⟨h7, hle⟩
    · simp [processItem, h7, hle] at h

/-- C5: every row of the normalized output comes from a fetched item whose
condition code is not the for-parts sentinel 7000 (regardless of price) and
whose combined price plus shipping does not exceed the max-price ceiling. -/
theorem C5_output_filters (cfg : SearchConfig) (items : List RawItem) (r : ResultRow)
    (h : r ∈ processItems cfg items) :
    ∃ item ∈ items, processItem cfg item = some r ∧
      item.conditionId ≠ some "7000" ∧ item.price + item.shipping ≤ cfg.max_price := by
  simp only [processItems] at h
  obtain ⟨item, hmem, hsome⟩ := List.mem_filterMap.mp h
  exact ⟨item, hmem, hsome, (processItem_some_conds cfg item r hsome).1,
    (processItem_some_conds cfg item r hsome).2⟩

/-- A concrete configuration for the C5 witness. -/
def cfgW : SearchConfig :=
  { selected_category := "All Categories", max_price := 150,
    cogs_method := CogsMethod.manual 0, shipping_cost := 0, ad_rate := 0 }

/-- A concrete fetched item for the C5 witness. -/
def itemW : RawItem :=
  { title := "t", price := 0, shipping := 0, conditionId := some "3000",
    condition := "Good", buyingOptions := ["FIXED_PRICE"], seller_username := "s",
    seller_feedback_score := PyNum.bad, seller_feedback_percent := PyNum.bad,
    link := "l" }

/-- The row the loop produces from itemW under cfgW. -/
def rowW : ResultRow :=
  { listing := "t", condition := "Good", price := 0, ebay_pay_out := -0.4,
    total_expenses := 0.4, target_acquisition_cost_cogs := 0, net_profit := -0.4,
    profit_margin := 0, listing_type := "FIXED_PRICE", seller := "s",
    seller_rating := "Uncategorized", seller_feedback := PyNum.bad,
    seller_feedback_score := PyNum.bad, link := "l" }

lemma processItems_cfgW : processItems cfgW [itemW] = [rowW] := by
  norm_num [processItems, processItem, cfgW, itemW, rowW, calculate_profit_metrics, coerceF,
    calculate_profit_metrics_body, categorize_seller, coerceI,
    all_categories_not_preferential, ResultRow.mk.injEq,
    List.filterMap_cons, List.filterMap_nil,
    (show String.intercalate ", " ["FIXED_PRICE"] = "FIXED_PRICE" from rfl),
    (by decide : ¬(("3000":String) = "7000"))]

/-- C5 witness: on a concrete one-item batch the theorem applies and the
produced row satisfies both filters. -/
theorem C5_output_filters_witness :
    rowW ∈ processItems cfgW [itemW] ∧
    ∃ item ∈ [itemW], processItem cfgW item = some rowW ∧
      item.conditionId ≠ some "7000" ∧ item.price + item.shipping ≤ cfgW.max_price :=
  ⟨by rw [processItems_cfgW]; exact List.mem_singleton.mpr rfl,
   C5_output_filters cfgW [itemW] rowW
     (by rw [processItems_cfgW]; exact List.mem_singleton.mpr rfl)⟩

/-- A concrete Headphones configuration for the C8 counterexample. -/
def cfgC8 : SearchConfig :=
  { selected_category := "Headphones", max_price := 150,
    cogs_method := CogsMethod.manual 2, shipping_cost := 0, ad_rate := 0 }

/-- A fetched item whose title is literally one of the excluded phrases. -/
def itemC8 : RawItem :=
  { title := "ear pads only", price := 10, shipping := 0, conditionId := some "3000",
    condition := "Good", buyingOptions := ["FIXED_PRICE"], seller_username := "s",
    seller_feedback_score := PyNum.bad, seller_feedback_percent := PyNum.bad,
    link := "l" }

/-- C8 counterexample: a listing whose title is an excluded phrase of the
Headphones exclusion list survives the post-fetch loop and appears in the
normalized output — the loop applies no title filter. -/
theorem C8_counterexample :
    "ear pads only" ∈ excluded_terms_headphones ∧
    (processItems cfgC8 [itemC8]).map (fun r => r.listing) = ["ear pads only"] := by
  refine ⟨by decide, ?_⟩
  norm_num [processItems, processItem, cfgC8, itemC8, calculate_profit_metrics, coerceF,
    calculate_profit_metrics_body, categorize_seller, coerceI,
    List.filterMap_cons, List.filterMap_nil,
    (by decide : ¬(("3000":String) = "7000"))]

/-- C8 (amended): the Headphones exclusion list is applied at query
construction — the query string sent upstream negates the whole exclusion
string — while the post-fetch loop is title-blind: whether an item is kept
does not depend on its title, so an excluded-title listing returned by the
API reaches the normalized output. -/
theorem C8_exclusions_in_query_only :
    (∀ t : String, buildQuery "Headphones" t = "\"" ++ t ++ "\" -" ++ exclusion_string) ∧
    exclusion_string = "(" ++ String.intercalate "," excluded_terms_headphones ++ ")" ∧
    "ear pads only" ∈ excluded_terms_headphones ∧
    (∀ cfg : SearchConfig, ∀ item : RawItem, ∀ t : String,
      (processItem cfg { item with title := t }).isSome = (processItem cfg item).isSome) := by
  refine ⟨fun t => ?_, rfl, by decide, fun cfg item t => ?_⟩
  · simp [buildQuery]
  · by_cases h7 : item.conditionId = some "7000"
    · simp [processItem, h7]
    · by_cases hle : item.price + item.shipping ≤ cfg.max_price
      · simp [processItem, h7, hle]
      · simp [processItem, h7, hle]

end EbaySpec
